import Mathlib

/-!
Shallow embedding of the GitHub Copilot metrics exporter (`src/main.go`):
the document model decoded from the upstream API, the Prometheus descriptor
registry built by `NewCopilotCollector`, the `Describe` and `Collect`
operations of the collector, the `exportBreakdown` helper, and the URL
selection of `fetchMetrics` together with `main`'s selector validation.
Go `int` counters are modelled as `Int`; Prometheus `float64` gauge values
are modelled as `ℚ` (every emitted value is an integer or a guarded ratio
of integers).
-/

namespace CopilotExporter

/-- `Breakdown` struct of `main.go`: three optional dimension strings and
eight optional integer counters (absent JSON fields decode to `""` / `0`). -/
structure Breakdown where
  Language : String
  Editor : String
  Model : String
  SuggestionsCount : Int
  AcceptancesCount : Int
  LinesSuggested : Int
  LinesAccepted : Int
  ActiveUsers : Int
  ChatAcceptances : Int
  ChatTurns : Int
  ActiveChatUsers : Int
  deriving Repr, DecidableEq

/-- anonymous repository struct inside `CopilotDotcomPullRequests`. -/
structure RepositoryEntry where
  Name : String
  TotalEngagedUsers : Int
  Models : List Breakdown
  deriving Repr, DecidableEq

/-- `CopilotIDECodeCompletions` nested struct. -/
structure CopilotIDECodeCompletions where
  TotalEngagedUsers : Int
  Languages : List Breakdown
  Editors : List Breakdown
  Models : List Breakdown
  deriving Repr, DecidableEq

/-- `CopilotIDEChat` nested struct. -/
structure CopilotIDEChat where
  TotalEngagedUsers : Int
  Editors : List Breakdown
  Models : List Breakdown
  deriving Repr, DecidableEq

/-- `CopilotDotcomChat` nested struct. -/
structure CopilotDotcomChat where
  TotalEngagedUsers : Int
  Models : List Breakdown
  deriving Repr, DecidableEq

/-- `CopilotDotcomPullRequests` nested struct. -/
structure CopilotDotcomPullRequests where
  TotalEngagedUsers : Int
  Repositories : List RepositoryEntry
  Models : List Breakdown
  deriving Repr, DecidableEq

/-- One element of `CopilotAPIResponse`: one day's usage record. -/
structure UsageRecord where
  Day : String
  TotalSuggestionsCount : Int
  TotalAcceptancesCount : Int
  TotalLinesSuggested : Int
  TotalLinesAccepted : Int
  TotalActiveUsers : Int
  TotalChatAcceptances : Int
  TotalChatTurns : Int
  TotalActiveChatUsers : Int
  Breakdown : List Breakdown
  CopilotIDECodeCompletions : CopilotIDECodeCompletions
  CopilotIDEChat : CopilotIDEChat
  CopilotDotcomChat : CopilotDotcomChat
  CopilotDotcomPullRequests : CopilotDotcomPullRequests
  deriving Repr, DecidableEq

/-- `CopilotAPIResponse`: the decoded upstream document, one record per day. -/
abbrev CopilotAPIResponse := List UsageRecord

/-- `prometheus.Desc` as far as the program uses it: metric name, help text,
ordered variable label names (`prometheus.NewDesc` with nil const labels). -/
structure Desc where
  fqName : String
  help : String
  variableLabels : List String
  deriving Repr, DecidableEq

/-- A metric observation produced by `prometheus.MustNewConstMetric`
(always `GaugeValue` in this program): descriptor, value, label values. -/
structure Metric where
  desc : Desc
  value : ℚ
  labelValues : List String
  deriving Repr, DecidableEq

/-- `prometheus.MustNewConstMetric(desc, prometheus.GaugeValue, v, labels...)`. -/
def MustNewConstMetric (desc : Desc) (value : ℚ) (labelValues : List String) :
    Metric :=
  ⟨desc, value, labelValues⟩

/-- `CopilotCollector` struct: the configuration strings and the 22
descriptors built by `NewCopilotCollector`. -/
structure CopilotCollector where
  githubToken : String
  organization : String
  team : String
  enterprise : String
  totalSuggestions : Desc
  totalAcceptances : Desc
  totalLinesSuggested : Desc
  totalLinesAccepted : Desc
  totalActiveUsers : Desc
  totalChatAcceptances : Desc
  totalChatTurns : Desc
  totalActiveChatUsers : Desc
  acceptanceRate : Desc
  breakdownSuggestions : Desc
  breakdownAcceptances : Desc
  breakdownLinesSuggested : Desc
  breakdownLinesAccepted : Desc
  breakdownActiveUsers : Desc
  breakdownChatAcceptances : Desc
  breakdownChatTurns : Desc
  breakdownActiveChatUsers : Desc
  ideCodeCompletionsEngagedUsers : Desc
  ideChatEngagedUsers : Desc
  dotcomChatEngagedUsers : Desc
  dotcomPREngagedUsers : Desc
  dotcomPRRepoEngagedUsers : Desc
  deriving Repr, DecidableEq

/-- `NewCopilotCollector`: stores the configuration and builds the fixed
descriptor registry. -/
def NewCopilotCollector (githubToken organization team enterprise : String) :
    CopilotCollector where
  githubToken := githubToken
  organization := organization
  team := team
  enterprise := enterprise
  totalSuggestions :=
    ⟨"github_copilot_suggestions_total",
     "Total number of Copilot suggestions", ["day", "org"]⟩
  totalAcceptances :=
    ⟨"github_copilot_acceptances_total",
     "Total number of Copilot acceptances", ["day", "org"]⟩
  totalLinesSuggested :=
    ⟨"github_copilot_lines_suggested_total",
     "Total number of lines suggested by Copilot", ["day", "org"]⟩
  totalLinesAccepted :=
    ⟨"github_copilot_lines_accepted_total",
     "Total number of lines accepted from Copilot", ["day", "org"]⟩
  totalActiveUsers :=
    ⟨"github_copilot_active_users_total",
     "Total number of active Copilot users", ["day", "org"]⟩
  totalChatAcceptances :=
    ⟨"github_copilot_chat_acceptances_total",
     "Total number of Copilot chat acceptances", ["day", "org"]⟩
  totalChatTurns :=
    ⟨"github_copilot_chat_turns_total",
     "Total number of Copilot chat turns", ["day", "org"]⟩
  totalActiveChatUsers :=
    ⟨"github_copilot_active_chat_users_total",
     "Total number of active Copilot chat users", ["day", "org"]⟩
  acceptanceRate :=
    ⟨"github_copilot_acceptance_rate",
     "Copilot acceptance rate (acceptances/suggestions)", ["day", "org"]⟩
  breakdownSuggestions :=
    ⟨"github_copilot_breakdown_suggestions_total",
     "Copilot suggestions by language, editor, or model",
     ["day", "org", "language", "editor", "model"]⟩
  breakdownAcceptances :=
    ⟨"github_copilot_breakdown_acceptances_total",
     "Copilot acceptances by language, editor, or model",
     ["day", "org", "language", "editor", "model"]⟩
  breakdownLinesSuggested :=
    ⟨"github_copilot_breakdown_lines_suggested_total",
     "Lines suggested by language, editor, or model",
     ["day", "org", "language", "editor", "model"]⟩
  breakdownLinesAccepted :=
    ⟨"github_copilot_breakdown_lines_accepted_total",
     "Lines accepted by language, editor, or model",
     ["day", "org", "language", "editor", "model"]⟩
  breakdownActiveUsers :=
    ⟨"github_copilot_breakdown_active_users",
     "Active users by language, editor, or model",
     ["day", "org", "language", "editor", "model"]⟩
  breakdownChatAcceptances :=
    ⟨"github_copilot_breakdown_chat_acceptances_total",
     "Chat acceptances by language, editor, or model",
     ["day", "org", "language", "editor", "model"]⟩
  breakdownChatTurns :=
    ⟨"github_copilot_breakdown_chat_turns_total",
     "Chat turns by language, editor, or model",
     ["day", "org", "language", "editor", "model"]⟩
  breakdownActiveChatUsers :=
    ⟨"github_copilot_breakdown_active_chat_users",
     "Active chat users by language, editor, or model",
     ["day", "org", "language", "editor", "model"]⟩
  ideCodeCompletionsEngagedUsers :=
    ⟨"github_copilot_ide_code_completions_engaged_users",
     "Total engaged users for IDE code completions", ["day", "org"]⟩
  ideChatEngagedUsers :=
    ⟨"github_copilot_ide_chat_engaged_users",
     "Total engaged users for IDE chat", ["day", "org"]⟩
  dotcomChatEngagedUsers :=
    ⟨"github_copilot_dotcom_chat_engaged_users",
     "Total engaged users for Dotcom chat", ["day", "org"]⟩
  dotcomPREngagedUsers :=
    ⟨"github_copilot_dotcom_pr_engaged_users",
     "Total engaged users for Dotcom pull requests", ["day", "org"]⟩
  dotcomPRRepoEngagedUsers :=
    ⟨"github_copilot_dotcom_pr_repo_engaged_users",
     "Engaged users for Dotcom pull requests by repository",
     ["day", "org", "repository"]⟩

/-- `Describe`: sends the 22 descriptors on the channel, in source order;
modelled as the ordered list of descriptors sent. -/
def Describe (c : CopilotCollector) : List Desc :=
  [c.totalSuggestions, c.totalAcceptances, c.totalLinesSuggested,
   c.totalLinesAccepted, c.totalActiveUsers, c.totalChatAcceptances,
   c.totalChatTurns, c.totalActiveChatUsers, c.acceptanceRate,
   c.breakdownSuggestions, c.breakdownAcceptances, c.breakdownLinesSuggested,
   c.breakdownLinesAccepted, c.breakdownActiveUsers,
   c.breakdownChatAcceptances, c.breakdownChatTurns,
   c.breakdownActiveChatUsers, c.ideCodeCompletionsEngagedUsers,
   c.ideChatEngagedUsers, c.dotcomChatEngagedUsers, c.dotcomPREngagedUsers,
   c.dotcomPRRepoEngagedUsers]

/-- `exportBreakdown` helper of `main.go`: defaults the dimension named by
`breakdownType` to "unknown" when empty, then emits the up-to-8 sparse
counter observations. -/
def exportBreakdown (c : CopilotCollector) (day org : String)
    (breakdown : Breakdown) (breakdownType : String) : List Metric :=
  let language := breakdown.Language
  let editor := breakdown.Editor
  let model := breakdown.Model
  let dims : String × String × String :=
    if breakdownType = "language" && language = "" then
      ("unknown", editor, model)
    else if breakdownType = "editor" && editor = "" then
      (language, "unknown", model)
    else if breakdownType = "model" && model = "" then
      (language, editor, "unknown")
    else
      (language, editor, model)
  let language := dims.1
  let editor := dims.2.1
  let model := dims.2.2
  (if breakdown.SuggestionsCount > 0 then
    [MustNewConstMetric c.breakdownSuggestions
      (breakdown.SuggestionsCount : ℚ) [day, org, language, editor, model]]
  else []) ++
  (if breakdown.AcceptancesCount > 0 then
    [MustNewConstMetric c.breakdownAcceptances
      (breakdown.AcceptancesCount : ℚ) [day, org, language, editor, model]]
  else []) ++
  (if breakdown.LinesSuggested > 0 then
    [MustNewConstMetric c.breakdownLinesSuggested
      (breakdown.LinesSuggested : ℚ) [day, org, language, editor, model]]
  else []) ++
  (if breakdown.LinesAccepted > 0 then
    [MustNewConstMetric c.breakdownLinesAccepted
      (breakdown.LinesAccepted : ℚ) [day, org, language, editor, model]]
  else []) ++
  (if breakdown.ActiveUsers > 0 then
    [MustNewConstMetric c.breakdownActiveUsers
      (breakdown.ActiveUsers : ℚ) [day, org, language, editor, model]]
  else []) ++
  (if breakdown.ChatAcceptances > 0 then
    [MustNewConstMetric c.breakdownChatAcceptances
      (breakdown.ChatAcceptances : ℚ) [day, org, language, editor, model]]
  else []) ++
  (if breakdown.ChatTurns > 0 then
    [MustNewConstMetric c.breakdownChatTurns
      (breakdown.ChatTurns : ℚ) [day, org, language, editor, model]]
  else []) ++
  (if breakdown.ActiveChatUsers > 0 then
    [MustNewConstMetric c.breakdownActiveChatUsers
      (breakdown.ActiveChatUsers : ℚ) [day, org, language, editor, model]]
  else [])

/-- Body of the generic-breakdown loop in `Collect` (lines 374-443 of
`main.go`): the three dimension labels verbatim, then the up-to-8 sparse
counter observations. -/
def genericBreakdownMetrics (c : CopilotCollector) (day org : String)
    (breakdown : Breakdown) : List Metric :=
  let language := breakdown.Language
  let editor := breakdown.Editor
  let model := breakdown.Model
  (if breakdown.SuggestionsCount > 0 then
    [MustNewConstMetric c.breakdownSuggestions
      (breakdown.SuggestionsCount : ℚ) [day, org, language, editor, model]]
  else []) ++
  (if breakdown.AcceptancesCount > 0 then
    [MustNewConstMetric c.breakdownAcceptances
      (breakdown.AcceptancesCount : ℚ) [day, org, language, editor, model]]
  else []) ++
  (if breakdown.LinesSuggested > 0 then
    [MustNewConstMetric c.breakdownLinesSuggested
      (breakdown.LinesSuggested : ℚ) [day, org, language, editor, model]]
  else []) ++
  (if breakdown.LinesAccepted > 0 then
    [MustNewConstMetric c.breakdownLinesAccepted
      (breakdown.LinesAccepted : ℚ) [day, org, language, editor, model]]
  else []) ++
  (if breakdown.ActiveUsers > 0 then
    [MustNewConstMetric c.breakdownActiveUsers
      (breakdown.ActiveUsers : ℚ) [day, org, language, editor, model]]
  else []) ++
  (if breakdown.ChatAcceptances > 0 then
    [MustNewConstMetric c.breakdownChatAcceptances
      (breakdown.ChatAcceptances : ℚ) [day, org, language, editor, model]]
  else []) ++
  (if breakdown.ChatTurns > 0 then
    [MustNewConstMetric c.breakdownChatTurns
      (breakdown.ChatTurns : ℚ) [day, org, language, editor, model]]
  else []) ++
  (if breakdown.ActiveChatUsers > 0 then
    [MustNewConstMetric c.breakdownActiveChatUsers
      (breakdown.ActiveChatUsers : ℚ) [day, org, language, editor, model]]
  else [])

/-- The acceptance-rate computation of `Collect` (lines 361-365):
`0.0` unless total suggestions `> 0`, else the quotient. -/
def acceptanceRateValue (metric : UsageRecord) : ℚ :=
  if metric.TotalSuggestionsCount > 0 then
    (metric.TotalAcceptancesCount : ℚ) / (metric.TotalSuggestionsCount : ℚ)
  else 0

/-- Body of the per-record loop of `Collect` (lines 304-536 of `main.go`),
in emission order. -/
def collectRecord (c : CopilotCollector) (metric : UsageRecord) :
    List Metric :=
  let day := metric.Day
  let org := if c.enterprise ≠ "" then c.enterprise else c.organization
  [MustNewConstMetric c.totalSuggestions
     (metric.TotalSuggestionsCount : ℚ) [day, org],
   MustNewConstMetric c.totalAcceptances
     (metric.TotalAcceptancesCount : ℚ) [day, org],
   MustNewConstMetric c.totalLinesSuggested
     (metric.TotalLinesSuggested : ℚ) [day, org],
   MustNewConstMetric c.totalLinesAccepted
     (metric.TotalLinesAccepted : ℚ) [day, org],
   MustNewConstMetric c.totalActiveUsers
     (metric.TotalActiveUsers : ℚ) [day, org],
   MustNewConstMetric c.totalChatAcceptances
     (metric.TotalChatAcceptances : ℚ) [day, org],
   MustNewConstMetric c.totalChatTurns
     (metric.TotalChatTurns : ℚ) [day, org],
   MustNewConstMetric c.totalActiveChatUsers
     (metric.TotalActiveChatUsers : ℚ) [day, org],
   MustNewConstMetric c.acceptanceRate (acceptanceRateValue metric)
     [day, org]] ++
  metric.Breakdown.flatMap (genericBreakdownMetrics c day org) ++
  (if metric.CopilotIDECodeCompletions.TotalEngagedUsers > 0 then
    [MustNewConstMetric c.ideCodeCompletionsEngagedUsers
      (metric.CopilotIDECodeCompletions.TotalEngagedUsers : ℚ) [day, org]]
  else []) ++
  metric.CopilotIDECodeCompletions.Languages.flatMap
    (fun lang => exportBreakdown c day org lang "language") ++
  metric.CopilotIDECodeCompletions.Editors.flatMap
    (fun editor => exportBreakdown c day org editor "editor") ++
  metric.CopilotIDECodeCompletions.Models.flatMap
    (fun model => exportBreakdown c day org model "model") ++
  (if metric.CopilotIDEChat.TotalEngagedUsers > 0 then
    [MustNewConstMetric c.ideChatEngagedUsers
      (metric.CopilotIDEChat.TotalEngagedUsers : ℚ) [day, org]]
  else []) ++
  metric.CopilotIDEChat.Editors.flatMap
    (fun editor => exportBreakdown c day org editor "editor") ++
  metric.CopilotIDEChat.Models.flatMap
    (fun model => exportBreakdown c day org model "model") ++
  (if metric.CopilotDotcomChat.TotalEngagedUsers > 0 then
    [MustNewConstMetric c.dotcomChatEngagedUsers
      (metric.CopilotDotcomChat.TotalEngagedUsers : ℚ) [day, org]]
  else []) ++
  metric.CopilotDotcomChat.Models.flatMap
    (fun model => exportBreakdown c day org model "model") ++
  (if metric.CopilotDotcomPullRequests.TotalEngagedUsers > 0 then
    [MustNewConstMetric c.dotcomPREngagedUsers
      (metric.CopilotDotcomPullRequests.TotalEngagedUsers : ℚ) [day, org]]
  else []) ++
  metric.CopilotDotcomPullRequests.Repositories.flatMap
    (fun repo =>
      (if repo.TotalEngagedUsers > 0 then
        [MustNewConstMetric c.dotcomPRRepoEngagedUsers
          (repo.TotalEngagedUsers : ℚ) [day, org, repo.Name]]
      else []) ++
      repo.Models.flatMap
        (fun model => exportBreakdown c day org model "model")) ++
  metric.CopilotDotcomPullRequests.Models.flatMap
    (fun model => exportBreakdown c day org model "model")

/-- The outcome of `fetchMetrics`: either an error (transport failure,
non-success status, or decode failure) or the decoded document. -/
abbrev FetchResult := Except String CopilotAPIResponse

/-- `Collect`: on fetch error, log and return with zero observations;
otherwise export every record in document order. The fetch outcome is
passed as a parameter (the fetch itself is I/O). -/
def Collect (c : CopilotCollector) (fetch : FetchResult) : List Metric :=
  match fetch with
  | .error _ => []
  | .ok metrics => metrics.flatMap (collectRecord c)

/-- URL selection of `fetchMetrics` (lines 620-629): enterprise wins, then
team-within-organization, then organization. -/
def fetchMetricsURL (c : CopilotCollector) : String :=
  if c.enterprise ≠ "" then
    "https://api.github.com/enterprises/" ++ c.enterprise ++
      "/copilot/metrics"
  else if c.team ≠ "" then
    "https://api.github.com/orgs/" ++ c.organization ++ "/team/" ++
      c.team ++ "/copilot/metrics"
  else
    "https://api.github.com/orgs/" ++ c.organization ++ "/copilot/metrics"

/-- `main`'s selector validation (lines 675-677): the process refuses to
start unless an organization or an enterprise is configured. -/
def mainSelectorValid (organization enterprise : String) : Bool :=
  !(organization = "" && enterprise = "")

/-- Number of observations for a given descriptor in a metric stream. -/
def countDesc (ms : List Metric) (d : Desc) : Nat :=
  ms.countP (fun m => m.desc == d)

section Helpers

variable {α : Type}

lemma mem_ite_nil {c : Prop} [Decidable c] {l : List Metric} {m : Metric} :
    m ∈ (if c then l else []) ↔ c ∧ m ∈ l := by
  split <;> simp_all

lemma countP_ite_singleton {p : Metric → Bool} {c : Prop} [Decidable c]
    {m : Metric} :
    (if c then [m] else []).countP p =
      if c then (if p m then 1 else 0) else 0 := by
  split <;> simp [List.countP_cons]

lemma countP_flatMap {l : List α} {f : α → List Metric} {p : Metric → Bool} :
    (l.flatMap f).countP p = (l.map (fun a => (f a).countP p)).sum := by
  induction l with
  | nil => simp
  | cons hd tl ihp => simp [List.flatMap_cons, List.countP_append, ihp]

lemma countP_flatMap_zero {l : List α} {f : α → List Metric}
    {p : Metric → Bool} (h : ∀ a ∈ l, (f a).countP p = 0) :
    (l.flatMap f).countP p = 0 := by
  induction l with
  | nil => simp
  | cons hd tl ihp =>
    simp only [List.flatMap_cons, List.countP_append]
    rw [h hd (by simp), ihp fun x hx => h x (by simp [hx])]

lemma filter_ite_nil {c : Prop} [Decidable c] {l : List Metric}
    {p : Metric → Bool} :
    (if c then l else []).filter p = if c then l.filter p else [] := by
  split <;> rfl

end Helpers

/-- Every metric produced by `exportBreakdown` uses one of the eight
breakdown descriptors and carries labels `[day, org, L, E, M]` where
the dimension named by the tag is defaulted to "unknown" exactly when
empty and the other two dimensions are passed through verbatim. -/
lemma exportBreakdown_shape (c : CopilotCollector) (day org : String)
    (b : Breakdown) (tag : String) :
    ∀ m ∈ exportBreakdown c day org b tag,
      m.desc ∈ [c.breakdownSuggestions, c.breakdownAcceptances,
        c.breakdownLinesSuggested, c.breakdownLinesAccepted,
        c.breakdownActiveUsers, c.breakdownChatAcceptances,
        c.breakdownChatTurns, c.breakdownActiveChatUsers] ∧
      m.labelValues = [day, org,
        if tag = "language" ∧ b.Language = "" then "unknown" else b.Language,
        if tag = "editor" ∧ b.Editor = "" then "unknown" else b.Editor,
        if tag = "model" ∧ b.Model = "" then "unknown" else b.Model] := by
  intro m hm
  have hdims :
      (if tag = "language" && b.Language = "" then
        (("unknown" : String), b.Editor, b.Model)
      else if tag = "editor" && b.Editor = "" then
        (b.Language, "unknown", b.Model)
      else if tag = "model" && b.Model = "" then
        (b.Language, b.Editor, "unknown")
      else (b.Language, b.Editor, b.Model)) =
      ((if tag = "language" ∧ b.Language = "" then "unknown" else b.Language),
       (if tag = "editor" ∧ b.Editor = "" then "unknown" else b.Editor),
       (if tag = "model" ∧ b.Model = "" then "unknown" else b.Model)) := by
    by_cases h1 : tag = "language" <;>
      by_cases h2 : tag = "editor" <;>
      by_cases h3 : tag = "model" <;>
      simp_all <;>
      by_cases hL : b.Language = "" <;>
      by_cases hE : b.Editor = "" <;>
      by_cases hM : b.Model = "" <;>
      simp_all
  simp only [exportBreakdown, hdims, MustNewConstMetric, List.mem_append,
    mem_ite_nil, List.mem_singleton, or_assoc] at hm
  rcases hm with hx | hx | hx | hx | hx | hx | hx | hx <;>
    (obtain ⟨-, rfl⟩ := hx; simp)

/-- Every metric produced by the generic breakdown loop uses one of the
eight breakdown descriptors and carries the three dimension values
verbatim. -/
lemma genericBreakdownMetrics_shape (c : CopilotCollector) (day org : String)
    (b : Breakdown) :
    ∀ m ∈ genericBreakdownMetrics c day org b,
      m.desc ∈ [c.breakdownSuggestions, c.breakdownAcceptances,
        c.breakdownLinesSuggested, c.breakdownLinesAccepted,
        c.breakdownActiveUsers, c.breakdownChatAcceptances,
        c.breakdownChatTurns, c.breakdownActiveChatUsers] ∧
      m.labelValues = [day, org, b.Language, b.Editor, b.Model] := by
  intro m hm
  simp only [genericBreakdownMetrics, MustNewConstMetric, List.mem_append,
    mem_ite_nil, List.mem_singleton, or_assoc] at hm
  rcases hm with hx | hx | hx | hx | hx | hx | hx | hx <;>
    (obtain ⟨-, rfl⟩ := hx; simp)

/-- C7: Descriptor stability: for every collector constructed with any
configuration, `Describe` yields exactly 22 descriptors, and the
descriptor list (names, helps, label schemas, order) is the same pure
value for every configuration and every call. -/
theorem describe_yields_22_stable_descriptors
    (tok org team ent tok' org' team' ent' : String) :
    (Describe (NewCopilotCollector tok org team ent)).length = 22 ∧
    Describe (NewCopilotCollector tok org team ent) =
      Describe (NewCopilotCollector tok' org' team' ent') := by
  exact ⟨rfl, rfl⟩

/-- C8: Atomic failure: whenever the fetch step fails, `Collect` emits
zero observations; the error is not surfaced in the metric stream. -/
theorem collect_fetch_error_yields_nothing
    (tok org team ent msg : String) :
    Collect (NewCopilotCollector tok org team ent) (Except.error msg) =
      [] := rfl

/-- C9: Endpoint selection priority: the fetcher builds exactly one URL,
preferring the enterprise path when the enterprise name is non-empty,
else the team-within-organization path when the team name is non-empty,
else the organization path; and a team selector without an organization
(and without an enterprise) is rejected by `main`'s validation. -/
theorem fetch_url_priority (tok org team ent : String) :
    (ent ≠ "" →
      fetchMetricsURL (NewCopilotCollector tok org team ent) =
        "https://api.github.com/enterprises/" ++ ent ++
          "/copilot/metrics") ∧
    (ent = "" → team ≠ "" →
      fetchMetricsURL (NewCopilotCollector tok org team ent) =
        "https://api.github.com/orgs/" ++ org ++ "/team/" ++ team ++
          "/copilot/metrics") ∧
    (ent = "" → team = "" →
      fetchMetricsURL (NewCopilotCollector tok org team ent) =
        "https://api.github.com/orgs/" ++ org ++ "/copilot/metrics") ∧
    mainSelectorValid "" "" = false := by
  refine ⟨fun h => ?_, fun h1 h2 => ?_, fun h1 h2 => ?_, rfl⟩ <;>
    simp [fetchMetricsURL, NewCopilotCollector, *]

/-- closed instance of `fetch_url_priority` at concrete configurations. -/
theorem fetch_url_priority_witness :
    fetchMetricsURL (NewCopilotCollector "tok" "acme" "devs" "bigcorp") =
      "https://api.github.com/enterprises/bigcorp/copilot/metrics" ∧
    fetchMetricsURL (NewCopilotCollector "tok" "acme" "devs" "") =
      "https://api.github.com/orgs/acme/team/devs/copilot/metrics" ∧
    fetchMetricsURL (NewCopilotCollector "tok" "acme" "" "") =
      "https://api.github.com/orgs/acme/copilot/metrics" :=
  ⟨(fetch_url_priority "tok" "acme" "devs" "bigcorp").1 (by decide),
   (fetch_url_priority "tok" "acme" "devs" "").2.1 rfl (by decide),
   (fetch_url_priority "tok" "acme" "" "").2.2.1 rfl rfl⟩

/-- C1: Sparse encoding of breakdown counters: for every `BreakdownEntry`
processed by the generic breakdown loop or by the dimension-defaulting
`exportBreakdown` (any tag), each of the eight counters produces exactly
one observation for its descriptor when `> 0` and none when `≤ 0`. -/
theorem breakdown_sparse_counters (tok o tm e day org tag : String)
    (b : Breakdown) :
    (countDesc (genericBreakdownMetrics (NewCopilotCollector tok o tm e)
        day org b) (NewCopilotCollector tok o tm e).breakdownSuggestions =
      if b.SuggestionsCount > 0 then 1 else 0) ∧
    (countDesc (genericBreakdownMetrics (NewCopilotCollector tok o tm e)
        day org b) (NewCopilotCollector tok o tm e).breakdownAcceptances =
      if b.AcceptancesCount > 0 then 1 else 0) ∧
    (countDesc (genericBreakdownMetrics (NewCopilotCollector tok o tm e)
        day org b) (NewCopilotCollector tok o tm e).breakdownLinesSuggested =
      if b.LinesSuggested > 0 then 1 else 0) ∧
    (countDesc (genericBreakdownMetrics (NewCopilotCollector tok o tm e)
        day org b) (NewCopilotCollector tok o tm e).breakdownLinesAccepted =
      if b.LinesAccepted > 0 then 1 else 0) ∧
    (countDesc (genericBreakdownMetrics (NewCopilotCollector tok o tm e)
        day org b) (NewCopilotCollector tok o tm e).breakdownActiveUsers =
      if b.ActiveUsers > 0 then 1 else 0) ∧
    (countDesc (genericBreakdownMetrics (NewCopilotCollector tok o tm e)
        day org b) (NewCopilotCollector tok o tm e).breakdownChatAcceptances =
      if b.ChatAcceptances > 0 then 1 else 0) ∧
    (countDesc (genericBreakdownMetrics (NewCopilotCollector tok o tm e)
        day org b) (NewCopilotCollector tok o tm e).breakdownChatTurns =
      if b.ChatTurns > 0 then 1 else 0) ∧
    (countDesc (genericBreakdownMetrics (NewCopilotCollector tok o tm e)
        day org b) (NewCopilotCollector tok o tm e).breakdownActiveChatUsers =
      if b.ActiveChatUsers > 0 then 1 else 0) ∧
    (countDesc (exportBreakdown (NewCopilotCollector tok o tm e)
        day org b tag) (NewCopilotCollector tok o tm e).breakdownSuggestions =
      if b.SuggestionsCount > 0 then 1 else 0) ∧
    (countDesc (exportBreakdown (NewCopilotCollector tok o tm e)
        day org b tag) (NewCopilotCollector tok o tm e).breakdownAcceptances =
      if b.AcceptancesCount > 0 then 1 else 0) ∧
    (countDesc (exportBreakdown (NewCopilotCollector tok o tm e)
        day org b tag) (NewCopilotCollector tok o tm e).breakdownLinesSuggested =
      if b.LinesSuggested > 0 then 1 else 0) ∧
    (countDesc (exportBreakdown (NewCopilotCollector tok o tm e)
        day org b tag) (NewCopilotCollector tok o tm e).breakdownLinesAccepted =
      if b.LinesAccepted > 0 then 1 else 0) ∧
    (countDesc (exportBreakdown (NewCopilotCollector tok o tm e)
        day org b tag) (NewCopilotCollector tok o tm e).breakdownActiveUsers =
      if b.ActiveUsers > 0 then 1 else 0) ∧
    (countDesc (exportBreakdown (NewCopilotCollector tok o tm e)
        day org b tag) (NewCopilotCollector tok o tm e).breakdownChatAcceptances =
      if b.ChatAcceptances > 0 then 1 else 0) ∧
    (countDesc (exportBreakdown (NewCopilotCollector tok o tm e)
        day org b tag) (NewCopilotCollector tok o tm e).breakdownChatTurns =
      if b.ChatTurns > 0 then 1 else 0) ∧
    (countDesc (exportBreakdown (NewCopilotCollector tok o tm e)
        day org b tag) (NewCopilotCollector tok o tm e).breakdownActiveChatUsers =
      if b.ActiveChatUsers > 0 then 1 else 0) := by
  simp [countDesc, genericBreakdownMetrics, exportBreakdown,
    MustNewConstMetric, List.countP_append, countP_ite_singleton,
    NewCopilotCollector]

/-- A descriptor that is none of the eight breakdown descriptors never
occurs in the output of `exportBreakdown`. -/
lemma exportBreakdown_filter_nil (c : CopilotCollector) (day org : String)
    (b : Breakdown) (tag : String) (d : Desc)
    (hd : d ∉ [c.breakdownSuggestions, c.breakdownAcceptances,
      c.breakdownLinesSuggested, c.breakdownLinesAccepted,
      c.breakdownActiveUsers, c.breakdownChatAcceptances,
      c.breakdownChatTurns, c.breakdownActiveChatUsers]) :
    (exportBreakdown c day org b tag).filter (fun m => m.desc == d) = [] := by
  rw [List.filter_eq_nil_iff]
  intro m hm hbeq
  rw [beq_iff_eq] at hbeq
  exact hd (hbeq ▸ (exportBreakdown_shape c day org b tag m hm).1)

/-- A descriptor that is none of the eight breakdown descriptors never
occurs in the output of the generic breakdown loop. -/
lemma genericBreakdownMetrics_filter_nil (c : CopilotCollector)
    (day org : String) (b : Breakdown) (d : Desc)
    (hd : d ∉ [c.breakdownSuggestions, c.breakdownAcceptances,
      c.breakdownLinesSuggested, c.breakdownLinesAccepted,
      c.breakdownActiveUsers, c.breakdownChatAcceptances,
      c.breakdownChatTurns, c.breakdownActiveChatUsers]) :
    (genericBreakdownMetrics c day org b).filter (fun m => m.desc == d) =
      [] := by
  rw [List.filter_eq_nil_iff]
  intro m hm hbeq
  rw [beq_iff_eq] at hbeq
  exact hd (hbeq ▸ (genericBreakdownMetrics_shape c day org b m hm).1)

lemma filter_flatMap_nil {α : Type} {l : List α} {f : α → List Metric}
    {p : Metric → Bool} (h : ∀ a ∈ l, (f a).filter p = []) :
    (l.flatMap f).filter p = [] := by
  induction l with
  | nil => rfl
  | cons hd tl ihp =>
    simp only [List.flatMap_cons, List.filter_append]
    rw [h hd (by simp), ihp fun x hx => h x (by simp [hx])]
    rfl

/-- Restricted to the acceptance-rate descriptor, one collection record
contributes exactly the single guarded-ratio observation. -/
lemma collectRecord_rate_filter (tok o tm e : String) (r : UsageRecord) :
    (collectRecord (NewCopilotCollector tok o tm e) r).filter
        (fun m => m.desc == (NewCopilotCollector tok o tm e).acceptanceRate) =
      [⟨(NewCopilotCollector tok o tm e).acceptanceRate,
        acceptanceRateValue r, [r.Day, if e ≠ "" then e else o]⟩] := by
  have hd : (NewCopilotCollector tok o tm e).acceptanceRate ∉
      [(NewCopilotCollector tok o tm e).breakdownSuggestions,
       (NewCopilotCollector tok o tm e).breakdownAcceptances,
       (NewCopilotCollector tok o tm e).breakdownLinesSuggested,
       (NewCopilotCollector tok o tm e).breakdownLinesAccepted,
       (NewCopilotCollector tok o tm e).breakdownActiveUsers,
       (NewCopilotCollector tok o tm e).breakdownChatAcceptances,
       (NewCopilotCollector tok o tm e).breakdownChatTurns,
       (NewCopilotCollector tok o tm e).breakdownActiveChatUsers] := by
    simp [NewCopilotCollector]
  simp only [collectRecord, List.filter_append, filter_ite_nil,
    filter_flatMap_nil fun a _ => genericBreakdownMetrics_filter_nil _ _ _ _ _ hd,
    filter_flatMap_nil fun a _ => exportBreakdown_filter_nil _ _ _ _ _ _ hd]
  rw [filter_flatMap_nil]
  · simp [NewCopilotCollector, MustNewConstMetric, List.filter_cons]
  · intro repo _
    simp only [List.filter_append, filter_ite_nil,
      filter_flatMap_nil fun a _ => exportBreakdown_filter_nil _ _ _ _ _ _ hd]
    simp [NewCopilotCollector, MustNewConstMetric, List.filter_cons]

/-- C2: For every `UsageRecord`, `Collect` emits exactly one derived
acceptance-ratio observation; its value is acceptances / suggestions when
total suggestions `> 0` and exactly `0` when total suggestions `= 0`;
the emission is unconditional and carries the day and resolved org
labels. -/
theorem acceptance_ratio_emitted_once (tok o tm e : String)
    (r : UsageRecord) :
    (collectRecord (NewCopilotCollector tok o tm e) r).filter
        (fun m => m.desc == (NewCopilotCollector tok o tm e).acceptanceRate) =
      [⟨(NewCopilotCollector tok o tm e).acceptanceRate,
        if r.TotalSuggestionsCount > 0 then
          (r.TotalAcceptancesCount : ℚ) / (r.TotalSuggestionsCount : ℚ)
        else 0,
        [r.Day, if e ≠ "" then e else o]⟩] :=
  collectRecord_rate_filter tok o tm e r

/-- A record whose total suggestions are negative (the document model
permits any `int`); used to exhibit the division guard. -/
def negSuggestionsRecord : UsageRecord :=
  ⟨"2024-01-01", -5, 7, 0, 0, 0, 0, 0, 0, [],
   ⟨0, [], [], []⟩, ⟨0, [], []⟩, ⟨0, []⟩, ⟨0, [], []⟩⟩

/-- C10: the acceptance-ratio division is guarded: for every record with
total suggestions `≤ 0` (including negative values) the emitted ratio
observation is exactly `0`; the division branch is never taken. -/
theorem ratio_division_guard (tok o tm e : String) (r : UsageRecord)
    (h : r.TotalSuggestionsCount ≤ 0) :
    (collectRecord (NewCopilotCollector tok o tm e) r).filter
        (fun m => m.desc == (NewCopilotCollector tok o tm e).acceptanceRate) =
      [⟨(NewCopilotCollector tok o tm e).acceptanceRate, 0,
        [r.Day, if e ≠ "" then e else o]⟩] := by
  have h0 : acceptanceRateValue r = 0 := by
    simp only [acceptanceRateValue,
      if_neg (show ¬ r.TotalSuggestionsCount > 0 by omega)]
  rw [collectRecord_rate_filter tok o tm e r, h0]

/-- closed instance of `ratio_division_guard` at a record with negative
total suggestions. -/
theorem ratio_division_guard_witness :
    negSuggestionsRecord.TotalSuggestionsCount ≤ 0 ∧
    (collectRecord (NewCopilotCollector "tok" "acme" "" "")
        negSuggestionsRecord).filter
        (fun m =>
          m.desc == (NewCopilotCollector "tok" "acme" "" "").acceptanceRate) =
      [⟨(NewCopilotCollector "tok" "acme" "" "").acceptanceRate, 0,
        ["2024-01-01", "acme"]⟩] :=
  ⟨by decide,
   ratio_division_guard "tok" "acme" "" "" negSuggestionsRecord (by decide)⟩

/-- Every metric emitted for a record carries the resolved org label in
position 1 of its label values. -/
lemma collectRecord_org_label (c : CopilotCollector) (r : UsageRecord) :
    ∀ m ∈ collectRecord c r,
      m.labelValues[1]? =
        some (if c.enterprise ≠ "" then c.enterprise else c.organization) := by
  intro m hm
  simp only [collectRecord, MustNewConstMetric, List.mem_append,
    List.mem_cons, List.not_mem_nil, or_false, mem_ite_nil,
    List.mem_singleton, List.mem_flatMap, or_assoc] at hm
  rcases hm with rfl|rfl|rfl|rfl|rfl|rfl|rfl|rfl|rfl
    | ⟨bk, -, hbk⟩ | ⟨-, rfl⟩ | ⟨bk, -, hbk⟩ | ⟨bk, -, hbk⟩ | ⟨bk, -, hbk⟩
    | ⟨-, rfl⟩ | ⟨bk, -, hbk⟩ | ⟨bk, -, hbk⟩ | ⟨-, rfl⟩ | ⟨bk, -, hbk⟩
    | ⟨-, rfl⟩ | ⟨rp, -, ⟨-, rfl⟩ | ⟨bk, -, hbk⟩⟩ | ⟨bk, -, hbk⟩
  all_goals try rfl
  · rw [(genericBreakdownMetrics_shape c r.Day _ bk m hbk).2]; rfl
  all_goals rw [(exportBreakdown_shape c r.Day _ bk _ m hbk).2]
  all_goals rfl

/-- C6: Org label resolution: every observation of a collection cycle
carries, as its org label, the enterprise name when non-empty and the
organization name otherwise; and the whole collection output is invariant
under the team name (the team never appears as a label). -/
theorem org_label_resolution (tok o tm e tm' : String)
    (fetch : FetchResult) :
    (∀ m ∈ Collect (NewCopilotCollector tok o tm e) fetch,
      m.labelValues[1]? = some (if e ≠ "" then e else o)) ∧
    Collect (NewCopilotCollector tok o tm e) fetch =
      Collect (NewCopilotCollector tok o tm' e) fetch := by
  constructor
  · intro m hm
    match fetch with
    | .error msg => simp [Collect] at hm
    | .ok recs =>
      simp only [Collect, List.mem_flatMap] at hm
      obtain ⟨r, -, hmr⟩ := hm
      have := collectRecord_org_label (NewCopilotCollector tok o tm e) r m hmr
      simpa [NewCopilotCollector] using this
  · rfl

/-- A one-record document used to exhibit the org-label resolution. -/
def orgLabelRecord : UsageRecord :=
  ⟨"2024-01-01", 0, 0, 0, 0, 0, 0, 0, 0, [],
   ⟨0, [], [], []⟩, ⟨0, [], []⟩, ⟨0, []⟩, ⟨0, [], []⟩⟩

/-- closed instance of `org_label_resolution`: with both an organization
and an enterprise configured, an emitted metric carries the enterprise
name as its org label. -/
theorem org_label_resolution_witness :
    (⟨(NewCopilotCollector "tok" "acme" "devs" "corp").totalSuggestions, 0,
      ["2024-01-01", "corp"]⟩ : Metric) ∈
      Collect (NewCopilotCollector "tok" "acme" "devs" "corp")
        (Except.ok [orgLabelRecord]) ∧
    (⟨(NewCopilotCollector "tok" "acme" "devs" "corp").totalSuggestions, 0,
      ["2024-01-01", "corp"]⟩ : Metric).labelValues[1]? = some "corp" := by
  have hm : (⟨(NewCopilotCollector "tok" "acme" "devs" "corp").totalSuggestions,
      0, ["2024-01-01", "corp"]⟩ : Metric) ∈
      Collect (NewCopilotCollector "tok" "acme" "devs" "corp")
        (Except.ok [orgLabelRecord]) := by
    simp [Collect, collectRecord, orgLabelRecord, NewCopilotCollector,
      MustNewConstMetric, acceptanceRateValue]
  refine ⟨hm, ?_⟩
  exact (org_label_resolution "tok" "acme" "devs" "corp" "devs"
    (Except.ok [orgLabelRecord])).1 _ hm

lemma exportBreakdown_countP_zero (c : CopilotCollector) (day org : String)
    (b : Breakdown) (tag : String) (d : Desc)
    (hd : d ∉ [c.breakdownSuggestions, c.breakdownAcceptances,
      c.breakdownLinesSuggested, c.breakdownLinesAccepted,
      c.breakdownActiveUsers, c.breakdownChatAcceptances,
      c.breakdownChatTurns, c.breakdownActiveChatUsers]) :
    (exportBreakdown c day org b tag).countP (fun m => m.desc == d) = 0 := by
  rw [List.countP_eq_zero]
  intro m hm hbeq
  rw [beq_iff_eq] at hbeq
  exact hd (hbeq ▸ (exportBreakdown_shape c day org b tag m hm).1)

lemma genericBreakdownMetrics_countP_zero (c : CopilotCollector)
    (day org : String) (b : Breakdown) (d : Desc)
    (hd : d ∉ [c.breakdownSuggestions, c.breakdownAcceptances,
      c.breakdownLinesSuggested, c.breakdownLinesAccepted,
      c.breakdownActiveUsers, c.breakdownChatAcceptances,
      c.breakdownChatTurns, c.breakdownActiveChatUsers]) :
    (genericBreakdownMetrics c day org b).countP (fun m => m.desc == d) =
      0 := by
  rw [List.countP_eq_zero]
  intro m hm hbeq
  rw [beq_iff_eq] at hbeq
  exact hd (hbeq ▸ (genericBreakdownMetrics_shape c day org b m hm).1)

lemma sum_map_ite {α : Type} (l : List α) (p : α → Prop) [DecidablePred p] :
    (l.map (fun a => if p a then 1 else 0)).sum =
      l.countP (fun a => decide (p a)) := by
  induction l with
  | nil => rfl
  | cons hd tl ihp =>
    simp only [List.map_cons, List.sum_cons, List.countP_cons, ihp,
      decide_eq_true_eq]
    split <;> simp [Nat.add_comm]

/-- Counting a non-breakdown descriptor in the repositories segment of a
record: only the per-repository engaged-user singletons can contribute. -/
lemma repos_countP (c : CopilotCollector) (day org : String)
    (repos : List RepositoryEntry) (d : Desc)
    (hd : d ∉ [c.breakdownSuggestions, c.breakdownAcceptances,
      c.breakdownLinesSuggested, c.breakdownLinesAccepted,
      c.breakdownActiveUsers, c.breakdownChatAcceptances,
      c.breakdownChatTurns, c.breakdownActiveChatUsers]) :
    ((repos.flatMap fun repo =>
        (if repo.TotalEngagedUsers > 0 then
          [MustNewConstMetric c.dotcomPRRepoEngagedUsers
            (repo.TotalEngagedUsers : ℚ) [day, org, repo.Name]]
        else []) ++
        repo.Models.flatMap fun model =>
          exportBreakdown c day org model "model").countP
      (fun m => m.desc == d)) =
      (repos.map fun repo =>
        if repo.TotalEngagedUsers > 0 then
          (if c.dotcomPRRepoEngagedUsers == d then 1 else 0)
        else 0).sum := by
  induction repos with
  | nil => rfl
  | cons rp tl ihp =>
    simp only [List.flatMap_cons, List.countP_append, List.map_cons,
      List.sum_cons, ihp, countP_ite_singleton]
    rw [countP_flatMap_zero
      fun b _ => exportBreakdown_countP_zero c day org b "model" d hd]
    simp [MustNewConstMetric]

/-- Master count formula: how often a non-breakdown descriptor occurs in
the export of one record. -/
lemma countDesc_collectRecord (c : CopilotCollector) (r : UsageRecord)
    (d : Desc)
    (hd : d ∉ [c.breakdownSuggestions, c.breakdownAcceptances,
      c.breakdownLinesSuggested, c.breakdownLinesAccepted,
      c.breakdownActiveUsers, c.breakdownChatAcceptances,
      c.breakdownChatTurns, c.breakdownActiveChatUsers]) :
    countDesc (collectRecord c r) d =
      ((if c.totalSuggestions == d then 1 else 0) +
       (if c.totalAcceptances == d then 1 else 0) +
       (if c.totalLinesSuggested == d then 1 else 0) +
       (if c.totalLinesAccepted == d then 1 else 0) +
       (if c.totalActiveUsers == d then 1 else 0) +
       (if c.totalChatAcceptances == d then 1 else 0) +
       (if c.totalChatTurns == d then 1 else 0) +
       (if c.totalActiveChatUsers == d then 1 else 0) +
       (if c.acceptanceRate == d then 1 else 0)) +
      (if r.CopilotIDECodeCompletions.TotalEngagedUsers > 0 then
        (if c.ideCodeCompletionsEngagedUsers == d then 1 else 0) else 0) +
      (if r.CopilotIDEChat.TotalEngagedUsers > 0 then
        (if c.ideChatEngagedUsers == d then 1 else 0) else 0) +
      (if r.CopilotDotcomChat.TotalEngagedUsers > 0 then
        (if c.dotcomChatEngagedUsers == d then 1 else 0) else 0) +
      (if r.CopilotDotcomPullRequests.TotalEngagedUsers > 0 then
        (if c.dotcomPREngagedUsers == d then 1 else 0) else 0) +
      (r.CopilotDotcomPullRequests.Repositories.map fun repo =>
        if repo.TotalEngagedUsers > 0 then
          (if c.dotcomPRRepoEngagedUsers == d then 1 else 0)
        else 0).sum := by
  rw [countDesc]
  simp only [collectRecord, List.countP_append]
  rw [countP_flatMap_zero
        fun b _ => genericBreakdownMetrics_countP_zero c r.Day _ b d hd,
      countP_flatMap_zero
        fun b _ => exportBreakdown_countP_zero c r.Day _ b "language" d hd,
      countP_flatMap_zero
        fun b _ => exportBreakdown_countP_zero c r.Day _ b "editor" d hd,
      countP_flatMap_zero
        fun b _ => exportBreakdown_countP_zero c r.Day _ b "model" d hd,
      countP_flatMap_zero
        fun b _ => exportBreakdown_countP_zero c r.Day _ b "editor" d hd,
      countP_flatMap_zero
        fun b _ => exportBreakdown_countP_zero c r.Day _ b "model" d hd,
      countP_flatMap_zero
        fun b _ => exportBreakdown_countP_zero c r.Day _ b "model" d hd,
      repos_countP c r.Day _ _ d hd,
      countP_flatMap_zero
        fun b _ => exportBreakdown_countP_zero c r.Day _ b "model" d hd]
  simp only [countP_ite_singleton, MustNewConstMetric, List.countP_cons,
    List.countP_nil]
  omega

/-- Scenario A: a record with all eight totals zero, no breakdown list
and empty feature sections. -/
def emptyTotalsRecord : UsageRecord :=
  ⟨"2024-01-01", 0, 0, 0, 0, 0, 0, 0, 0, [],
   ⟨0, [], [], []⟩, ⟨0, [], []⟩, ⟨0, []⟩, ⟨0, [], []⟩⟩

/-- C3: Top-level totals are dense: every record yields exactly one
observation per top-level total descriptor regardless of value, and the
all-zero record with no nested sections yields exactly 9 observations
(8 totals plus the ratio) and nothing else. -/
theorem toplevel_totals_dense (tok o tm e : String) (r : UsageRecord) :
    (countDesc (collectRecord (NewCopilotCollector tok o tm e) r)
      (NewCopilotCollector tok o tm e).totalSuggestions = 1) ∧
    (countDesc (collectRecord (NewCopilotCollector tok o tm e) r)
      (NewCopilotCollector tok o tm e).totalAcceptances = 1) ∧
    (countDesc (collectRecord (NewCopilotCollector tok o tm e) r)
      (NewCopilotCollector tok o tm e).totalLinesSuggested = 1) ∧
    (countDesc (collectRecord (NewCopilotCollector tok o tm e) r)
      (NewCopilotCollector tok o tm e).totalLinesAccepted = 1) ∧
    (countDesc (collectRecord (NewCopilotCollector tok o tm e) r)
      (NewCopilotCollector tok o tm e).totalActiveUsers = 1) ∧
    (countDesc (collectRecord (NewCopilotCollector tok o tm e) r)
      (NewCopilotCollector tok o tm e).totalChatAcceptances = 1) ∧
    (countDesc (collectRecord (NewCopilotCollector tok o tm e) r)
      (NewCopilotCollector tok o tm e).totalChatTurns = 1) ∧
    (countDesc (collectRecord (NewCopilotCollector tok o tm e) r)
      (NewCopilotCollector tok o tm e).totalActiveChatUsers = 1) ∧
    (collectRecord (NewCopilotCollector tok o tm e)
      emptyTotalsRecord).length = 9 := by
  refine ⟨?_, ?_, ?_, ?_, ?_, ?_, ?_, ?_,
    by simp [collectRecord, emptyTotalsRecord]⟩ <;>
    rw [countDesc_collectRecord _ _ _ (by simp [NewCopilotCollector])] <;>
    simp [NewCopilotCollector]

/-- Scenario D: a record whose four feature sections report only
engaged-user totals 10, 5, 3, 2 and nothing else. -/
def scenarioDRecord : UsageRecord :=
  ⟨"2024-01-01", 0, 0, 0, 0, 0, 0, 0, 0, [],
   ⟨10, [], [], []⟩, ⟨5, [], []⟩, ⟨3, []⟩, ⟨2, [], []⟩⟩

/-- C5: Engaged-user suppression and repository recursion: each feature
section yields one engaged-user observation iff its scalar is positive;
each pull-request repository yields one repository-labeled engaged-user
observation iff its scalar is positive, followed by its model breakdown
list exported through the dimension-defaulting exporter with tag
"model"; and the scenario-D record yields exactly 13 observations. -/
theorem engaged_user_suppression (tok o tm e : String) (r : UsageRecord) :
    (countDesc (collectRecord (NewCopilotCollector tok o tm e) r)
      (NewCopilotCollector tok o tm e).ideCodeCompletionsEngagedUsers =
      if r.CopilotIDECodeCompletions.TotalEngagedUsers > 0 then 1
      else 0) ∧
    (countDesc (collectRecord (NewCopilotCollector tok o tm e) r)
      (NewCopilotCollector tok o tm e).ideChatEngagedUsers =
      if r.CopilotIDEChat.TotalEngagedUsers > 0 then 1 else 0) ∧
    (countDesc (collectRecord (NewCopilotCollector tok o tm e) r)
      (NewCopilotCollector tok o tm e).dotcomChatEngagedUsers =
      if r.CopilotDotcomChat.TotalEngagedUsers > 0 then 1 else 0) ∧
    (countDesc (collectRecord (NewCopilotCollector tok o tm e) r)
      (NewCopilotCollector tok o tm e).dotcomPREngagedUsers =
      if r.CopilotDotcomPullRequests.TotalEngagedUsers > 0 then 1
      else 0) ∧
    (countDesc (collectRecord (NewCopilotCollector tok o tm e) r)
      (NewCopilotCollector tok o tm e).dotcomPRRepoEngagedUsers =
      r.CopilotDotcomPullRequests.Repositories.countP
        (fun repo => decide (repo.TotalEngagedUsers > 0))) ∧
    (∀ (day name : String) (eu : Int) (b : Breakdown),
      collectRecord (NewCopilotCollector "tok" "acme" "" "")
        ⟨day, 0, 0, 0, 0, 0, 0, 0, 0, [],
         ⟨0, [], [], []⟩, ⟨0, [], []⟩, ⟨0, []⟩,
         ⟨0, [⟨name, eu, [b]⟩], []⟩⟩ =
      [⟨(NewCopilotCollector "tok" "acme" "" "").totalSuggestions, 0,
         [day, "acme"]⟩,
       ⟨(NewCopilotCollector "tok" "acme" "" "").totalAcceptances, 0,
         [day, "acme"]⟩,
       ⟨(NewCopilotCollector "tok" "acme" "" "").totalLinesSuggested, 0,
         [day, "acme"]⟩,
       ⟨(NewCopilotCollector "tok" "acme" "" "").totalLinesAccepted, 0,
         [day, "acme"]⟩,
       ⟨(NewCopilotCollector "tok" "acme" "" "").totalActiveUsers, 0,
         [day, "acme"]⟩,
       ⟨(NewCopilotCollector "tok" "acme" "" "").totalChatAcceptances, 0,
         [day, "acme"]⟩,
       ⟨(NewCopilotCollector "tok" "acme" "" "").totalChatTurns, 0,
         [day, "acme"]⟩,
       ⟨(NewCopilotCollector "tok" "acme" "" "").totalActiveChatUsers, 0,
         [day, "acme"]⟩,
       ⟨(NewCopilotCollector "tok" "acme" "" "").acceptanceRate, 0,
         [day, "acme"]⟩] ++
      (if eu > 0 then
        [⟨(NewCopilotCollector "tok" "acme" "" "").dotcomPRRepoEngagedUsers,
          (eu : ℚ), [day, "acme", name]⟩]
      else []) ++
      exportBreakdown (NewCopilotCollector "tok" "acme" "" "") day "acme"
        b "model") ∧
    (collectRecord (NewCopilotCollector tok o tm e)
      scenarioDRecord).length = 13 := by
  refine ⟨?_, ?_, ?_, ?_, ?_, ?_,
    by simp [collectRecord, scenarioDRecord]⟩
  · rw [countDesc_collectRecord _ _ _ (by simp [NewCopilotCollector])]
    simp [NewCopilotCollector]
  · rw [countDesc_collectRecord _ _ _ (by simp [NewCopilotCollector])]
    simp [NewCopilotCollector]
  · rw [countDesc_collectRecord _ _ _ (by simp [NewCopilotCollector])]
    simp [NewCopilotCollector]
  · rw [countDesc_collectRecord _ _ _ (by simp [NewCopilotCollector])]
    simp [NewCopilotCollector]
  · rw [countDesc_collectRecord _ _ _ (by simp [NewCopilotCollector])]
    simp [NewCopilotCollector, sum_map_ite]
  · intro day name eu b
    simp [collectRecord, NewCopilotCollector, MustNewConstMetric,
      acceptanceRateValue]

/-- C4: Frame property of dimension defaulting: for every entry and every
declared dimension tag among "language", "editor", "model", the
dimension-defaulting exporter replaces the field matching the tag with
"unknown" exactly when it is empty; the other two dimension fields (and a
non-empty tagged field) are emitted verbatim, never altered. -/
theorem exportBreakdown_dimension_frame (tok o tm e day org tag : String)
    (b : Breakdown)
    (htag : tag = "language" ∨ tag = "editor" ∨ tag = "model") :
    ∀ m ∈ exportBreakdown (NewCopilotCollector tok o tm e) day org b tag,
      m.labelValues = [day, org,
        if tag = "language" ∧ b.Language = "" then "unknown" else b.Language,
        if tag = "editor" ∧ b.Editor = "" then "unknown" else b.Editor,
        if tag = "model" ∧ b.Model = "" then "unknown" else b.Model] :=
  fun m hm =>
    (exportBreakdown_shape (NewCopilotCollector tok o tm e) day org b tag
      m hm).2

/-- A breakdown entry with an empty model dimension and two non-empty
other dimensions, used to exhibit the defaulting frame. -/
def emptyModelEntry : Breakdown :=
  ⟨"python", "vscode", "", 50, 40, 0, 0, 0, 0, 0, 0⟩

/-- closed instance of `exportBreakdown_dimension_frame`: under tag
"model", the empty model field becomes "unknown" and the language and
editor fields pass through verbatim. -/
theorem exportBreakdown_dimension_frame_witness :
    (⟨(NewCopilotCollector "tok" "acme" "" "").breakdownSuggestions, 50,
      ["2024-01-01", "acme", "python", "vscode", "unknown"]⟩ : Metric) ∈
      exportBreakdown (NewCopilotCollector "tok" "acme" "" "")
        "2024-01-01" "acme" emptyModelEntry "model" ∧
    Metric.labelValues
      ⟨(NewCopilotCollector "tok" "acme" "" "").breakdownSuggestions, 50,
       ["2024-01-01", "acme", "python", "vscode", "unknown"]⟩ =
      ["2024-01-01", "acme",
       if "model" = "language" ∧ emptyModelEntry.Language = "" then
         "unknown" else emptyModelEntry.Language,
       if "model" = "editor" ∧ emptyModelEntry.Editor = "" then
         "unknown" else emptyModelEntry.Editor,
       if "model" = "model" ∧ emptyModelEntry.Model = "" then
         "unknown" else emptyModelEntry.Model] := by
  have hm : (⟨(NewCopilotCollector "tok" "acme" "" "").breakdownSuggestions,
      50, ["2024-01-01", "acme", "python", "vscode", "unknown"]⟩ : Metric) ∈
      exportBreakdown (NewCopilotCollector "tok" "acme" "" "")
        "2024-01-01" "acme" emptyModelEntry "model" := by
    simp [exportBreakdown, emptyModelEntry, NewCopilotCollector,
      MustNewConstMetric]
  exact ⟨hm, exportBreakdown_dimension_frame "tok" "acme" "" ""
    "2024-01-01" "acme" "model" emptyModelEntry
    (Or.inr (Or.inr rfl)) _ hm⟩

end CopilotExporter
